import Mathlib

/-!
Verification of the credit-card fraud-detection pipeline
(`app.py`, route `upload` and its helpers) against its specification.

The pipeline is embedded shallowly:

* a pandas `DataFrame` of the uploaded CSV is a `RawTable` (header plus rows
  of cells, where `Cell.null` models a missing value / `NaN`);
* `pd.to_datetime(..., errors='coerce')` is an abstract permissive parser
  `parseDate : String → Option Date`, a parameter of the environment `Env`;
  a `Date` is abstracted to the three projections the program uses
  (its rendered text, `.dt.month` and `.dt.dayofweek`);
* the `StandardScaler` + `IsolationForest` pair is an abstract scoring
  function `Env.score : List FeatureRow → ℕ → Except String (List Int)`
  receiving the feature matrix and the seed (`random_state=42` is passed as
  the literal `42` by the pipeline, mirroring line 145 of `app.py`);
  a raised exception is an `Except.error`;
* writing the two matplotlib figures and the report CSV are abstract
  fallible effects (`saveEdaPlot`, `saveFraudPlot`, `writeCsv`); the CSV
  *content* the reporter would write is computed by the model
  (`RunOutput.reportRows`) so that its shape can be verified;
* the global dict `results_data` is `Option ResultSet`: `none` is the empty
  dict at startup, and `ResultSet` is a structure with exactly the nine
  fields that `results_data.update({...})` installs, so a populated state
  always carries all nine fields;
* `float` arithmetic is modelled by exact rationals `ℚ`, and Python's
  `round(x, 2)` by `roundTo2`; Python's `ZeroDivisionError` on
  `fraud_count / total_transactions` with zero rows is the explicit guard
  in `runPipeline`;
* pandas raising when an assigned column's length mismatches the frame is
  the explicit length guard before `zipWith`;
* pandas label-based selection `df[expected_cols]` takes, for each
  requested label, every column bearing it, so with a duplicated
  normalized label it yields more than four columns and the four-name
  rename of line 101 raises a length-mismatch `ValueError`; this is the
  `selectedColCount` guard in `runPipeline`, and `ingestRows` performs the
  selection in the guarded (duplicate-free) case, where the first match is
  the only match.

String-presentation details (HTML rendering via `to_html`, the exact text
of the preprocessing / EDA summaries, the float `describe()` statistics)
are presentation-only and are kept as structured data rather than strings.
-/

set_option maxRecDepth 4000

/-- Missing-value-aware cell of a data frame: `null` models pandas `NaN`. -/
inductive Cell where
  | null : Cell
  | text : String → Cell
deriving DecidableEq

/-- Parsed datetime, abstracted to the projections the program uses:
its rendered form, `.dt.month`, and `.dt.dayofweek`. -/
structure Date where
  iso : String
  month : ℕ
  dayOfWeek : ℕ
deriving DecidableEq

instance : Inhabited Date := ⟨⟨"", 0, 0⟩⟩

/-- Uploaded CSV as parsed by `pd.read_csv`: a header line and data rows. -/
structure RawTable where
  header : List String
  rows : List (List Cell)
deriving DecidableEq

/-- Row of the ingested frame after `df = df[expected_cols]` and the rename
to the four canonical column names (line 100-101 of `app.py`). -/
structure RawRecord where
  transaction_date : Cell
  agency_name : Cell
  merchant_name : Cell
  transaction_amount : Cell
deriving DecidableEq

/-- Row after `pd.to_datetime(..., errors='coerce')` replaced the date text
by a parsed date or `NaT` (modelled as `none`). -/
structure ParsedRecord where
  transaction_date : Option Date
  agency_name : Cell
  merchant_name : Cell
  transaction_amount : Cell
deriving DecidableEq

/-- Row after feature engineering (lines 118-121 of `app.py`): the four
canonical columns plus `Month`, `DayOfWeek`, `AGENCY_CODE`, `MERCHANT_CODE`. -/
structure FeatRec where
  transaction_date : Date
  agency_name : String
  merchant_name : String
  transaction_amount : String
  month : ℕ
  dayOfWeek : ℕ
  agency_code : ℕ
  merchant_code : ℕ
deriving DecidableEq

/-- Row after `df['Anomaly'] = model.predict(features_scaled)`. -/
structure LabeledRec extends FeatRec where
  anomaly : Int
deriving DecidableEq

/-- Attach the predicted label to a featurized row. -/
def mkLabeled (r : FeatRec) (a : Int) : LabeledRec :=
  { toFeatRec := r, anomaly := a }

/-- One row of the feature matrix handed to the scorer (line 141 of
`app.py`): `TRANSACTION_AMOUNT, AGENCY_CODE, MERCHANT_CODE, Month,
DayOfWeek`.  The amount is kept as its cell text; the scorer is abstract. -/
abbrev FeatureRow := String × ℕ × ℕ × ℕ × ℕ

/-- Diagnostic counters recorded by the preprocessing step
(lines 107-115 of `app.py`): shape before cleaning, per-column null
counts, shape after cleaning. -/
structure PrepInfo where
  initialRows : ℕ
  nullDates : ℕ
  nullAgencies : ℕ
  nullMerchants : ℕ
  nullAmounts : ℕ
  cleanedRows : ℕ
deriving DecidableEq

/-- Structured content of the EDA summary (lines 124-128 of `app.py`):
top-5 agency counts, top-5 merchant counts, per-month counts.  The float
`describe()` statistics of the amount column are presentation-only. -/
structure EdaInfo where
  topAgencies : List (String × ℕ)
  topMerchants : List (String × ℕ)
  monthlyCounts : List (ℕ × ℕ)
deriving DecidableEq

/-- The nine entries installed into the global `results_data` dict on a
successful run (lines 173-183 of `app.py`). -/
structure ResultSet where
  raw_preview : List RawRecord
  preprocessing_summary : PrepInfo
  eda_summary : EdaInfo
  fraud_table : List LabeledRec
  eda_plot : String
  fraud_plot : String
  fraud_count : ℕ
  total_transactions : ℕ
  fraud_percentage : ℚ
deriving DecidableEq

instance : Inhabited ResultSet :=
  ⟨⟨[], ⟨0, 0, 0, 0, 0, 0⟩, ⟨[], [], []⟩, [], "", "", 0, 0, 0⟩⟩

/-- Everything a fully successful run produces: the new Result Set plus the
report-CSV artifact (its fixed path and its content, header line included). -/
structure RunOutput where
  resultSet : ResultSet
  reportPath : String
  reportRows : List (List String)
deriving DecidableEq

instance : Inhabited RunOutput := ⟨⟨default, "", []⟩⟩

/-- Outcome of one call of the `upload` view body. -/
inductive UploadResult where
  | schemaError : List String → UploadResult
  | pipelineError : String → UploadResult
  | success : RunOutput → UploadResult
deriving DecidableEq

/-- HTTP-level response as the web framework sees it. -/
structure Response where
  body : String
  status : ℕ
deriving DecidableEq

/-- External collaborators of the pipeline: the permissive date parser,
the seeded scorer (scaler + isolation forest), and the three fallible
artifact writes.  Each `Except.error` models a raised exception. -/
structure Env where
  parseDate : String → Option Date
  score : List FeatureRow → ℕ → Except String (List Int)
  saveEdaPlot : Except String Unit
  saveFraudPlot : Except String Unit
  writeCsv : Except String Unit

/-! ### Ingestor (lines 92-101 of `app.py`) -/

/-- Column normalization of line 93: `col.strip().lower().replace(" ", "_")`,
performed character-wise (the replaced pattern is the single character
`' '`, so the character-wise form is equivalent). -/
def normalizeCol (s : String) : String :=
  let trimmed :=
    ((s.data.dropWhile Char.isWhitespace).reverse.dropWhile Char.isWhitespace).reverse
  String.mk (trimmed.map fun c =>
    let lc := c.toLower
    if lc = ' ' then '_' else lc)

/-- The required normalized column names (line 96 of `app.py`). -/
def expected_cols : List String :=
  ["transaction_date", "agency_name", "vendor", "amount"]

/-- Schema validation of line 97:
`all(col in actual_cols for col in expected_cols)`. -/
def schemaOk (t : RawTable) : Bool :=
  expected_cols.all fun c => (t.header.map normalizeCol).contains c

/-- Number of columns `df[expected_cols]` selects at line 100: pandas
label-based selection takes, for each requested label, every column
bearing it.  The rename at line 101 assigns exactly four names and raises
a length-mismatch `ValueError` whenever this count is not four (under the
schema check each required label occurs at least once, so the count is
four exactly when no required label is duplicated). -/
def selectedColCount (t : RawTable) : ℕ :=
  (expected_cols.map fun c => (t.header.map normalizeCol).count c).sum

/-- Label-based cell lookup used by the column selection `df[expected_cols]`
in the duplicate-free case guarded by `selectedColCount`: cell at the
first column whose normalized name matches, which is then the only match. -/
def selectCell (cols : List String) (row : List Cell) (name : String) : Cell :=
  row.getD (cols.indexOf name) Cell.null

/-- Column selection and rename of lines 100-101 in the duplicate-free
case guarded by `selectedColCount`: keep only the four expected columns
(silently dropping the rest) and give them the canonical names
`TRANSACTION_DATE, AGENCY_NAME, MERCHANT_NAME, TRANSACTION_AMOUNT`. -/
def ingestRows (t : RawTable) : List RawRecord :=
  let cols := t.header.map normalizeCol
  t.rows.map fun row =>
    { transaction_date := selectCell cols row "transaction_date"
      agency_name := selectCell cols row "agency_name"
      merchant_name := selectCell cols row "vendor"
      transaction_amount := selectCell cols row "amount" }

/-! ### Cleaner (lines 111-113 of `app.py`) -/

/-- Test for a missing value. -/
def Cell.isNull : Cell → Bool
  | .null => true
  | .text _ => false

/-- Text content of a cell (only used on non-null cells downstream). -/
def Cell.getText : Cell → String
  | .null => ""
  | .text s => s

/-- Predicate of `df.dropna()`: every one of the four columns is present. -/
def RawRecord.allPresent (r : RawRecord) : Bool :=
  !r.transaction_date.isNull && !r.agency_name.isNull &&
    !r.merchant_name.isNull && !r.transaction_amount.isNull

/-- `df.dropna(inplace=True)` (line 111): drop any row with a null in any
of the four canonical columns. -/
def dropna (rows : List RawRecord) : List RawRecord :=
  rows.filter (·.allPresent)

/-- Permissive parse of one date cell: a null stays `NaT`, text is handed
to the permissive parser, which yields `none` on failure (`errors='coerce'`). -/
def parseDateCell (pd : String → Option Date) : Cell → Option Date
  | .null => none
  | .text s => pd s

/-- `df['TRANSACTION_DATE'] = pd.to_datetime(df['TRANSACTION_DATE'],
errors='coerce')` (line 112). -/
def toDatetime (pd : String → Option Date) (rows : List RawRecord) :
    List ParsedRecord :=
  rows.map fun r =>
    { transaction_date := parseDateCell pd r.transaction_date
      agency_name := r.agency_name
      merchant_name := r.merchant_name
      transaction_amount := r.transaction_amount }

/-- `df.dropna(subset=['TRANSACTION_DATE'], inplace=True)` (line 113). -/
def dropnaDate (rows : List ParsedRecord) : List ParsedRecord :=
  rows.filter (·.transaction_date.isSome)

/-- The whole cleaning stage applied to the ingested table. -/
def cleanRows (pd : String → Option Date) (t : RawTable) : List ParsedRecord :=
  dropnaDate (toDatetime pd (dropna (ingestRows t)))

/-- Characterization of the rows the cleaner keeps: all four cells present
and the date text parses. -/
def keepRow (pd : String → Option Date) (r : RawRecord) : Bool :=
  r.allPresent && (parseDateCell pd r.transaction_date).isSome

/-- What a kept raw row becomes after date parsing. -/
def parsedOf (pd : String → Option Date) (r : RawRecord) : ParsedRecord :=
  { transaction_date := parseDateCell pd r.transaction_date
    agency_name := r.agency_name
    merchant_name := r.merchant_name
    transaction_amount := r.transaction_amount }

/-! ### Feature Builder (lines 118-121 of `app.py`) -/

/-- Distinct values in order of first appearance. -/
def firstSeen (xs : List String) : List String :=
  xs.foldl (fun acc v => if v ∈ acc then acc else acc ++ [v]) []

/-- Lexicographic code-point comparison of two character lists. -/
def charsLe : List Char → List Char → Bool
  | [], _ => true
  | _ :: _, [] => false
  | a :: as, b :: bs =>
    if a < b then true
    else if b < a then false
    else charsLe as bs

/-- Lexicographic code-point comparison of two strings, the order pandas
uses when sorting the categories of a string column. -/
def strLe (a b : String) : Bool :=
  charsLe a.data b.data

/-- Categories of pandas `astype('category')` for a string column: the
distinct values sorted lexicographically ascending (pandas sorts the
categories of an object column; codes are positions in this sorted list). -/
def sortedCategories (xs : List String) : List String :=
  List.insertionSort (fun a b : String => strLe a b = true) (firstSeen xs)

/-- The feature-engineering stage: add `Month`, `DayOfWeek` (lines 118-119)
and the two dense category codes `AGENCY_CODE`, `MERCHANT_CODE`
(`.astype('category').cat.codes`, lines 120-121). -/
def featureize (rows : List ParsedRecord) : List FeatRec :=
  let agencies := sortedCategories (rows.map fun r => r.agency_name.getText)
  let merchants := sortedCategories (rows.map fun r => r.merchant_name.getText)
  rows.map fun r =>
    let d := r.transaction_date.getD default
    { transaction_date := d
      agency_name := r.agency_name.getText
      merchant_name := r.merchant_name.getText
      transaction_amount := r.transaction_amount.getText
      month := d.month
      dayOfWeek := d.dayOfWeek
      agency_code := agencies.indexOf r.agency_name.getText
      merchant_code := merchants.indexOf r.merchant_name.getText }

/-- Feature matrix row handed to the scorer (line 141 of `app.py`). -/
def featuresOf (r : FeatRec) : FeatureRow :=
  (r.transaction_amount, r.agency_code, r.merchant_code, r.month, r.dayOfWeek)

/-! ### EDA summary (lines 124-128 of `app.py`) -/

/-- Frequency table of `value_counts()`: distinct values with their counts,
sorted by count descending. -/
def valueCounts (xs : List String) : List (String × ℕ) :=
  List.insertionSort (fun a b : String × ℕ => b.2 ≤ a.2)
    ((firstSeen xs).map fun v => (v, xs.count v))

/-- Per-month transaction counts, `value_counts().sort_index()` (line 128). -/
def monthlyValueCounts (ms : List ℕ) : List (ℕ × ℕ) :=
  List.insertionSort (fun a b : ℕ × ℕ => a.1 ≤ b.1)
    (((ms.foldl (fun acc v => if v ∈ acc then acc else acc ++ [v]) []).map
      fun m => (m, ms.count m)))

/-! ### Reporter helpers -/

/-- Header line of `fraud_report.csv`: the frame's column order after
feature engineering and the `Anomaly` assignment. -/
def reportHeader : List String :=
  ["TRANSACTION_DATE", "AGENCY_NAME", "MERCHANT_NAME", "TRANSACTION_AMOUNT",
   "Month", "DayOfWeek", "AGENCY_CODE", "MERCHANT_CODE", "Anomaly"]

/-- One data line of `fraud_report.csv` (`anomalies.to_csv(..., index=False)`,
line 170 of `app.py`). -/
def renderReportRow (r : LabeledRec) : List String :=
  [r.transaction_date.iso, r.agency_name, r.merchant_name,
   r.transaction_amount, toString r.month, toString r.dayOfWeek,
   toString r.agency_code, toString r.merchant_code, toString r.anomaly]

/-- Python's `round(q, 2)` on exact rationals. -/
def roundTo2 (q : ℚ) : ℚ :=
  ((round (q * 100) : ℤ) : ℚ) / 100

/-- Count of nulls in one column (`df.isnull().sum()`, line 109). -/
def nullCount (rows : List RawRecord) (f : RawRecord → Cell) : ℕ :=
  (rows.filter fun r => (f r).isNull).length

/-! ### The upload pipeline (lines 90-188 of `app.py`) -/

/-- Body of the `upload` view inside its `try` block, as a pure function of
the environment and the parsed upload.  Stages appear in source order:
schema check, the duplicate-label rename guard of lines 100-101,
ingestion, raw preview, cleaning, feature engineering, EDA, EDA-plot
write, scoring, anomaly selection and counters (with the
division-by-zero guard of `fraud_count / total_transactions`), fraud-plot
write, report-CSV write, and finally the assembled Result Set. -/
def runPipeline (env : Env) (t : RawTable) : UploadResult :=
  let actual_cols := t.header.map normalizeCol
  if schemaOk t then
   if selectedColCount t = 4 then
    let df := ingestRows t
    let raw_preview := df.take 5
    let df1 := dropna df
    let df2 := toDatetime env.parseDate df1
    let df3 := dropnaDate df2
    let prep : PrepInfo :=
      { initialRows := df.length
        nullDates := nullCount df (·.transaction_date)
        nullAgencies := nullCount df (·.agency_name)
        nullMerchants := nullCount df (·.merchant_name)
        nullAmounts := nullCount df (·.transaction_amount)
        cleanedRows := df3.length }
    let feat := featureize df3
    let eda : EdaInfo :=
      { topAgencies := (valueCounts (feat.map (·.agency_name))).take 5
        topMerchants := (valueCounts (feat.map (·.merchant_name))).take 5
        monthlyCounts := monthlyValueCounts (feat.map (·.month)) }
    match env.saveEdaPlot with
    | .error e => .pipelineError e
    | .ok _ =>
      match env.score (feat.map featuresOf) 42 with
      | .error e => .pipelineError e
      | .ok labels =>
        if labels.length = feat.length then
          let labeled := List.zipWith mkLabeled feat labels
          let anomalies := labeled.filter fun r => r.anomaly == -1
          let total_transactions := labeled.length
          let fraud_count := anomalies.length
          if total_transactions = 0 then
            .pipelineError "division by zero"
          else
            let fraud_percentage :=
              roundTo2 (((fraud_count : ℚ) / (total_transactions : ℚ)) * 100)
            match env.saveFraudPlot with
            | .error e => .pipelineError e
            | .ok _ =>
              match env.writeCsv with
              | .error e => .pipelineError e
              | .ok _ =>
                .success
                  { resultSet :=
                      { raw_preview := raw_preview
                        preprocessing_summary := prep
                        eda_summary := eda
                        fraud_table := anomalies
                        eda_plot := "eda_plot.png"
                        fraud_plot := "fraud_agencies.png"
                        fraud_count := fraud_count
                        total_transactions := total_transactions
                        fraud_percentage := fraud_percentage }
                    reportPath := "result/fraud_report.csv"
                    reportRows := reportHeader :: anomalies.map renderReportRow }
        else
          .pipelineError "Length of values does not match length of index"
   else
    .pipelineError "Length mismatch: Expected axis has more elements than new values"
  else
    .schemaError actual_cols

/-- The `upload` view around the pipeline: translate the outcome into the
HTTP response and the new value of the global `results_data`.  A schema
failure is the `return ..., 400` of line 98; an in-`try` exception is the
plain-string return of line 188, which the framework serves with its
default status 200; success redirects to `/results` (302) after
`results_data.update({...})`. -/
def uploadStep (env : Env) (t : RawTable) (st : Option ResultSet) :
    Response × Option ResultSet :=
  match runPipeline env t with
  | .schemaError found =>
      ({ body := "Required columns missing. Found: " ++ toString found
         status := 400 }, st)
  | .pipelineError e =>
      ({ body := "Error while processing file: " ++ e, status := 200 }, st)
  | .success out =>
      ({ body := "redirect:/results", status := 302 }, some out.resultSet)

/-- Discriminator for a fully successful run. -/
def UploadResult.isSuccess : UploadResult → Bool
  | .success _ => true
  | _ => false

/-- States of the global `results_data` reachable from the empty startup
state by any sequence of uploads (each with its own environment and file). -/
inductive Reachable : Option ResultSet → Prop where
  | init : Reachable none
  | step (env : Env) (t : RawTable) {st : Option ResultSet} :
      Reachable st → Reachable (uploadStep env t st).2

/-- Project the payload out of a successful outcome. -/
def outOf : UploadResult → RunOutput
  | .success o => o
  | _ => default

/-- A table with extra columns appended after the existing ones: extra
header names and, per row, extra trailing cells. -/
def extendTable (t : RawTable) (extraHeader : List String)
    (extraRows : List (List Cell)) : RawTable :=
  { header := t.header ++ extraHeader
    rows := List.zipWith (· ++ ·) t.rows extraRows }

/-- Code assignment in the spec's words, for comparison with the code's
`sortedCategories`-based assignment: a dense integer per distinct text
value in order of first appearance within the upload. -/
def specFirstSeenCodes (xs : List String) : List ℕ :=
  xs.map fun v => (firstSeen xs).indexOf v

/-! ### Concrete fixtures used by the witnesses and counterexamples -/

/-- Sample parsed date. -/
def toyDate : Date := { iso := "2024-01-01", month := 1, dayOfWeek := 0 }

/-- Sample permissive parser recognizing a single date format. -/
def toyParse : String → Option Date :=
  fun s => if s = "2024-01-01" then some toyDate else none

/-- Sample deterministic scorer: it flags the first row and clears the rest. -/
def toyScore : List FeatureRow → ℕ → Except String (List Int) :=
  fun rows _ =>
    .ok (match rows with
         | [] => []
         | _ :: rest => -1 :: rest.map fun _ => 1)

/-- Environment in which every external effect succeeds. -/
def toyEnv : Env :=
  { parseDate := toyParse
    score := toyScore
    saveEdaPlot := .ok ()
    saveFraudPlot := .ok ()
    writeCsv := .ok () }

/-- Well-formed two-row upload. -/
def toyInput : RawTable :=
  { header := ["Transaction Date", "Agency Name", "Vendor", "Amount"]
    rows := [[.text "2024-01-01", .text "b", .text "m1", .text "10"],
             [.text "2024-01-01", .text "a", .text "m2", .text "9999"]] }

/-- Environment whose scorer raises, modelling an internal model failure. -/
def envFail : Env :=
  { parseDate := toyParse
    score := fun _ _ => .error "boom"
    saveEdaPlot := .ok ()
    saveFraudPlot := .ok ()
    writeCsv := .ok () }

/-- Upload whose only row has an unparsable date, so cleaning drops
every row. -/
def emptyCleanInput : RawTable :=
  { header := ["transaction_date", "agency_name", "vendor", "amount"]
    rows := [[.text "not-a-date", .text "a", .text "m", .text "1"]] }

/-- Upload missing the required `vendor` column. -/
def missingVendorInput : RawTable :=
  { header := ["Transaction Date", "Agency Name", "Amount"]
    rows := [[.text "2024-01-01", .text "a", .text "1"]] }

/-- Cleaned rows whose agency texts appear in the order `b`, `a`, i.e. not
already in sorted order, to separate first-seen from sorted code
assignment. -/
def fsRows : List ParsedRecord :=
  [{ transaction_date := some toyDate, agency_name := .text "b",
     merchant_name := .text "m", transaction_amount := .text "1" },
   { transaction_date := some toyDate, agency_name := .text "a",
     merchant_name := .text "m", transaction_amount := .text "2" }]

/-- The toy upload with one extra column `AMOUNT`, whose normalized name
`amount` collides with the required normalized name of the existing
`Amount` column. -/
def dupColInput : RawTable :=
  extendTable toyInput ["AMOUNT"] [[.text "1"], [.text "2"]]

theorem clean_eq_filter (pd : String → Option Date) (rows : List RawRecord) :
    dropnaDate (toDatetime pd (dropna rows)) =
      (rows.filter (keepRow pd)).map (parsedOf pd) := by
  simp only [dropnaDate, toDatetime, dropna]
  induction rows with
  | nil => rfl
  | cons r rs ih =>
    by_cases hA : r.allPresent
    · by_cases hP : (parseDateCell pd r.transaction_date).isSome
      · simp [hA, hP, ih, keepRow, parsedOf, List.filter_cons]
      · simp [hA, hP, ih, keepRow, List.filter_cons]
    · simp [hA, ih, keepRow, List.filter_cons]

theorem featureize_length (rows : List ParsedRecord) :
    (featureize rows).length = rows.length := by
  simp [featureize]

theorem run_success_spec (env : Env) (t : RawTable) (out : RunOutput)
    (h : runPipeline env t = .success out) :
    schemaOk t = true ∧
    ∃ labels,
      env.score ((featureize (cleanRows env.parseDate t)).map featuresOf) 42 =
          .ok labels ∧
      labels.length = (featureize (cleanRows env.parseDate t)).length ∧
      out.resultSet.fraud_table =
        (List.zipWith mkLabeled (featureize (cleanRows env.parseDate t))
          labels).filter (fun r => r.anomaly == -1) ∧
      out.resultSet.total_transactions = (cleanRows env.parseDate t).length ∧
      out.resultSet.fraud_count = out.resultSet.fraud_table.length ∧
      out.resultSet.total_transactions ≠ 0 ∧
      out.resultSet.fraud_percentage =
        roundTo2 ((out.resultSet.fraud_count : ℚ) /
          (out.resultSet.total_transactions : ℚ) * 100) ∧
      out.reportPath = "result/fraud_report.csv" ∧
      out.reportRows =
        reportHeader :: out.resultSet.fraud_table.map renderReportRow ∧
      out.resultSet.raw_preview = (ingestRows t).take 5 := by
  have hS : schemaOk t = true := by
    by_contra hS'
    simp only [Bool.not_eq_true] at hS'
    simp [runPipeline, hS'] at h
  refine ⟨hS, ?_⟩
  simp only [runPipeline, hS, if_true] at h
  have hC : selectedColCount t = 4 := by
    by_contra hC'
    rw [if_neg hC'] at h
    simp at h
  rw [if_pos hC] at h
  rcases hE : env.saveEdaPlot with e | u
  · rw [hE] at h; simp at h
  · rw [hE] at h; dsimp only at h
    rcases hSc : env.score
        ((featureize (dropnaDate (toDatetime env.parseDate
          (dropna (ingestRows t))))).map featuresOf) 42 with e | labels
    · rw [hSc] at h; simp at h
    · rw [hSc] at h; dsimp only at h
      by_cases hlen : labels.length =
          (featureize (dropnaDate (toDatetime env.parseDate
            (dropna (ingestRows t))))).length
      · rw [if_pos hlen] at h
        by_cases h0 : (List.zipWith mkLabeled
            (featureize (dropnaDate (toDatetime env.parseDate
              (dropna (ingestRows t))))) labels).length = 0
        · rw [if_pos h0] at h; simp at h
        · rw [if_neg h0] at h
          rcases hF : env.saveFraudPlot with e | uF
          · rw [hF] at h; simp at h
          · rw [hF] at h; dsimp only at h
            rcases hW : env.writeCsv with e | uW
            · rw [hW] at h; simp at h
            · rw [hW] at h; dsimp only at h
              injection h with h
              subst h
              unfold cleanRows
              exact ⟨labels, hSc, hlen, rfl,
                by simp [List.length_zipWith, hlen, featureize_length],
                rfl, h0, rfl, rfl, rfl, rfl⟩
      · rw [if_neg hlen] at h; simp at h

theorem roundTo2_nonneg {q : ℚ} (h : 0 ≤ q) : 0 ≤ roundTo2 q := by
  unfold roundTo2
  have h1 : (0 : ℤ) ≤ round (q * 100) := by
    rw [round_eq]
    have h2 : (0 : ℤ) = ⌊(1 / 2 : ℚ)⌋ := by norm_num
    rw [h2]
    exact Int.floor_mono (by linarith)
  positivity

theorem roundTo2_le_100 {q : ℚ} (h : q ≤ 100) : roundTo2 q ≤ 100 := by
  unfold roundTo2
  have h1 : round (q * 100) ≤ 10000 := by
    rw [round_eq]
    have h2 : ⌊q * 100 + 1 / 2⌋ ≤ ⌊(10000 : ℚ) + 1 / 2⌋ :=
      Int.floor_mono (by linarith)
    have h3 : ⌊(10000 : ℚ) + 1 / 2⌋ = 10000 := by norm_num
    omega
  rw [div_le_iff₀ (by norm_num : (0 : ℚ) < 100)]
  calc ((round (q * 100) : ℤ) : ℚ) ≤ ((10000 : ℤ) : ℚ) := by exact_mod_cast h1
    _ = 100 * 100 := by norm_num

theorem exists_of_mem_zipWith {α β γ : Type} {f : α → β → γ} :
    ∀ {l1 : List α} {l2 : List β} {x : γ}, x ∈ List.zipWith f l1 l2 →
      ∃ a, a ∈ l1 ∧ ∃ b, b ∈ l2 ∧ x = f a b := by
  intro l1
  induction l1 with
  | nil => intro l2 x h; simp at h
  | cons a l ih =>
    intro l2 x h
    cases l2 with
    | nil => simp at h
    | cons b l2 =>
      rw [List.zipWith_cons_cons, List.mem_cons] at h
      rcases h with h | h
      · exact ⟨a, by simp, b, by simp, h⟩
      · obtain ⟨a', ha, b', hb, hx⟩ := ih h
        exact ⟨a', by simp [ha], b', by simp [hb], hx⟩

theorem mem_foldl_firstSeen_of_mem_acc :
    ∀ (xs acc : List String) (x : String), x ∈ acc →
      x ∈ xs.foldl (fun acc v => if v ∈ acc then acc else acc ++ [v]) acc := by
  intro xs
  induction xs with
  | nil => intro acc x h; simpa using h
  | cons v t ih =>
    intro acc x h
    simp only [List.foldl_cons]
    apply ih
    by_cases hv : v ∈ acc <;> simp [hv, h]

theorem mem_foldl_firstSeen_of_mem :
    ∀ (xs acc : List String) (x : String), x ∈ xs →
      x ∈ xs.foldl (fun acc v => if v ∈ acc then acc else acc ++ [v]) acc := by
  intro xs
  induction xs with
  | nil => intro acc x h; simp at h
  | cons v t ih =>
    intro acc x h
    simp only [List.foldl_cons]
    rcases List.mem_cons.1 h with rfl | h
    · apply mem_foldl_firstSeen_of_mem_acc
      by_cases hv : x ∈ acc <;> simp [hv]
    · exact ih _ _ h

theorem mem_firstSeen_of_mem {xs : List String} {x : String} (h : x ∈ xs) :
    x ∈ firstSeen xs :=
  mem_foldl_firstSeen_of_mem xs [] x h

theorem mem_sortedCategories_of_mem {xs : List String} {x : String}
    (h : x ∈ xs) : x ∈ sortedCategories xs := by
  unfold sortedCategories
  rw [List.mem_insertionSort]
  exact mem_firstSeen_of_mem h

/-- C1: on a successful upload, `total_transactions` is the cleaned row
count (not the raw count), `fraud_count` counts the rows whose `Anomaly`
flag is `-1`, and `fraud_percentage` is `round(100 * fraud_count /
total_transactions, 2)`. -/
theorem upload_counters_correct (env : Env) (t : RawTable) (out : RunOutput)
    (h : runPipeline env t = .success out) :
    out.resultSet.total_transactions = (cleanRows env.parseDate t).length ∧
    (∀ labels,
      env.score ((featureize (cleanRows env.parseDate t)).map featuresOf) 42 =
          .ok labels →
      out.resultSet.fraud_count =
        (List.zipWith mkLabeled (featureize (cleanRows env.parseDate t))
          labels).countP (fun r => r.anomaly == -1)) ∧
    out.resultSet.fraud_percentage =
      roundTo2 (100 * (out.resultSet.fraud_count : ℚ) /
        (out.resultSet.total_transactions : ℚ)) := by
  obtain ⟨hS, labels, hSc, hlen, htab, htot, hcnt, hne, hpct, hpath, hrows,
    hprev⟩ := run_success_spec env t out h
  refine ⟨htot, ?_, ?_⟩
  · intro labels' hSc'
    rw [hSc] at hSc'
    injection hSc' with hSc'
    subst hSc'
    rw [hcnt, htab, List.countP_eq_length_filter]
  · rw [hpct]
    congr 1
    ring

/-- Closed instance of C1's theorem at a concrete successful run. -/
theorem upload_counters_correct_witness :
    (outOf (runPipeline toyEnv toyInput)).resultSet.total_transactions =
      (cleanRows toyEnv.parseDate toyInput).length :=
  (upload_counters_correct toyEnv toyInput
    (outOf (runPipeline toyEnv toyInput)) (by rfl)).1

/-- C2: with a fixed environment (the scorer is a function of the feature
matrix and the seed, and the pipeline always passes the constant seed 42),
two runs on identical inputs produce the same flagged-row set, the same
fraud count, and in fact the same whole Result Set. -/
theorem upload_deterministic (env : Env) (t1 t2 : RawTable) (hin : t1 = t2)
    (o1 o2 : RunOutput)
    (h1 : runPipeline env t1 = .success o1)
    (h2 : runPipeline env t2 = .success o2) :
    o1.resultSet.fraud_table = o2.resultSet.fraud_table ∧
    o1.resultSet.fraud_count = o2.resultSet.fraud_count ∧
    o1.resultSet = o2.resultSet := by
  subst hin
  rw [h1] at h2
  injection h2 with h2
  subst h2
  exact ⟨rfl, rfl, rfl⟩

/-- Closed instance of C2's theorem at a concrete repeated run. -/
theorem upload_deterministic_witness :
    (outOf (runPipeline toyEnv toyInput)).resultSet.fraud_count =
      (outOf (runPipeline toyEnv toyInput)).resultSet.fraud_count :=
  (upload_deterministic toyEnv toyInput toyInput rfl
    (outOf (runPipeline toyEnv toyInput)) (outOf (runPipeline toyEnv toyInput))
    (by rfl) (by rfl)).2.1

/-- C4: whenever the run is not fully successful, the global results store
keeps its previous value, so the previous Result Set (or the empty startup
state) stays visible until some later run fully succeeds. -/
theorem upload_failure_preserves_results (env : Env) (t : RawTable)
    (st : Option ResultSet)
    (h : (runPipeline env t).isSuccess = false) :
    (uploadStep env t st).2 = st := by
  unfold uploadStep
  rcases hr : runPipeline env t with f | e | o
  · rfl
  · rfl
  · rw [hr] at h
    simp [UploadResult.isSuccess] at h

/-- Closed instance of C4's theorem on a run whose scorer raises. -/
theorem upload_failure_preserves_results_witness :
    (uploadStep envFail toyInput (some default)).2 = some default :=
  upload_failure_preserves_results envFail toyInput (some default) (by decide)

/-- C6 counterexample: a scoring failure produces the catch-all error page,
whose HTTP status is the framework default 200 (a bare string return), not
a 500-equivalent status, even though the body carries the exception text. -/
theorem internal_error_status_not_500 :
    (uploadStep envFail toyInput none).1.status = 200 ∧
    ¬(uploadStep envFail toyInput none).1.status = 500 ∧
    (uploadStep envFail toyInput none).1.body =
      "Error while processing file: boom" := by decide

/-- C6 amended: every non-schema pipeline failure yields a response whose
body is the fixed prefix followed by the underlying exception text
verbatim, served with status 200, and the Result Set is unchanged. -/
theorem internal_error_response (env : Env) (t : RawTable)
    (st : Option ResultSet) (e : String)
    (h : runPipeline env t = .pipelineError e) :
    (uploadStep env t st).1 =
      { body := "Error while processing file: " ++ e, status := 200 } ∧
    (uploadStep env t st).2 = st := by
  unfold uploadStep
  rw [h]
  exact ⟨rfl, rfl⟩

/-- Closed instance of the amended C6 theorem. -/
theorem internal_error_response_witness :
    (uploadStep envFail toyInput none).1 =
      { body := "Error while processing file: " ++ "boom", status := 200 } :=
  (internal_error_response envFail toyInput none "boom" (by decide)).1

/-- C8: on success the report artifact sits at the fixed, per-run
overwritten path `result/fraud_report.csv`; its first line is the
nine-column header in declaration order, and it carries exactly
`fraud_count` data rows, the rendered flagged rows. -/
theorem report_csv_shape (env : Env) (t : RawTable) (out : RunOutput)
    (h : runPipeline env t = .success out) :
    out.reportPath = "result/fraud_report.csv" ∧
    out.reportRows.head? = some reportHeader ∧
    reportHeader = ["TRANSACTION_DATE", "AGENCY_NAME", "MERCHANT_NAME",
      "TRANSACTION_AMOUNT", "Month", "DayOfWeek", "AGENCY_CODE",
      "MERCHANT_CODE", "Anomaly"] ∧
    out.reportRows.length = out.resultSet.fraud_count + 1 ∧
    out.reportRows.tail = out.resultSet.fraud_table.map renderReportRow := by
  obtain ⟨hS, labels, hSc, hlen, htab, htot, hcnt, hne, hpct, hpath, hrows,
    hprev⟩ := run_success_spec env t out h
  refine ⟨hpath, ?_, rfl, ?_, ?_⟩ <;> rw [hrows] <;> simp [hcnt]

/-- Closed instance of C8's theorem. -/
theorem report_csv_shape_witness :
    (outOf (runPipeline toyEnv toyInput)).reportPath =
      "result/fraud_report.csv" :=
  (report_csv_shape toyEnv toyInput
    (outOf (runPipeline toyEnv toyInput)) (by rfl)).1

/-- C9: when cleaning leaves zero rows, no run can succeed: whatever the
scorer does on the empty feature matrix, the computation of
`fraud_count / total_transactions` divides by zero, so the run aborts via
the catch-all error path and the Result Set is not updated. -/
theorem empty_clean_never_succeeds (env : Env) (t : RawTable)
    (st : Option ResultSet) (hS : schemaOk t = true)
    (hempty : cleanRows env.parseDate t = []) :
    (∃ e, runPipeline env t = .pipelineError e) ∧
    (uploadStep env t st).2 = st := by
  have hempty' : dropnaDate (toDatetime env.parseDate
      (dropna (ingestRows t))) = [] := hempty
  have hmain : ∃ e, runPipeline env t = .pipelineError e := by
    unfold runPipeline
    rw [hS, if_pos rfl]
    by_cases hC : selectedColCount t = 4
    case neg => exact ⟨_, by rw [if_neg hC]⟩
    rw [if_pos hC]
    dsimp only
    rw [hempty']
    rcases hE : env.saveEdaPlot with e | u
    · exact ⟨e, rfl⟩
    · rcases hSc : env.score ((featureize []).map featuresOf) 42
        with e | labels
      · exact ⟨e, rfl⟩
      · by_cases hlen : labels.length = (featureize ([] : List ParsedRecord)).length
        · refine ⟨"division by zero", ?_⟩
          simp [featureize] at hlen ⊢
          exact hlen
        · refine ⟨"Length of values does not match length of index", ?_⟩
          simp [featureize] at hlen ⊢
          exact hlen
  obtain ⟨e, he⟩ := hmain
  refine ⟨⟨e, he⟩, ?_⟩
  unfold uploadStep
  rw [he]

/-- Closed instance of C9's theorem: one row whose date fails to parse. -/
theorem empty_clean_never_succeeds_witness :
    (uploadStep toyEnv emptyCleanInput none).2 = none :=
  (empty_clean_never_succeeds toyEnv emptyCleanInput none
    (by decide) (by decide)).2

/-- C10: in every state reachable from the empty startup state through any
sequence of uploads, a populated Result Set (a structure carrying all nine
fields by construction) satisfies `fraud_count ≤ total_transactions` and
`0 ≤ fraud_percentage ≤ 100` (with `0 ≤ fraud_count` by the type `ℕ`). -/
theorem result_set_invariant (st : Option ResultSet) (hreach : Reachable st) :
    ∀ rs : ResultSet, st = some rs →
      rs.fraud_count ≤ rs.total_transactions ∧
      0 ≤ rs.fraud_percentage ∧ rs.fraud_percentage ≤ 100 := by
  induction hreach with
  | init => intro rs h; simp at h
  | step env t hprev ih =>
    intro rs hst
    rcases hr : runPipeline env t with f | e | o
    · apply ih
      unfold uploadStep at hst
      rw [hr] at hst
      exact hst
    · apply ih
      unfold uploadStep at hst
      rw [hr] at hst
      exact hst
    · unfold uploadStep at hst
      rw [hr] at hst
      injection hst with hst
      subst hst
      obtain ⟨hS, labels, hSc, hlen, htab, htot, hcnt, hne, hpct, hpath,
        hrows, hprev'⟩ := run_success_spec env t o hr
      have h1 : o.resultSet.fraud_count ≤ o.resultSet.total_transactions := by
        rw [hcnt, htab, htot]
        calc ((List.zipWith mkLabeled (featureize (cleanRows env.parseDate t))
                labels).filter (fun r => r.anomaly == -1)).length
            ≤ (List.zipWith mkLabeled (featureize (cleanRows env.parseDate t))
                labels).length := List.length_filter_le _ _
          _ = (cleanRows env.parseDate t).length := by
              simp [List.length_zipWith, hlen, featureize_length]
      have htt : (0 : ℚ) < (o.resultSet.total_transactions : ℚ) := by
        have := Nat.pos_of_ne_zero hne
        exact_mod_cast this
      have hfc : (o.resultSet.fraud_count : ℚ) ≤
          (o.resultSet.total_transactions : ℚ) := by exact_mod_cast h1
      have hq0 : 0 ≤ (o.resultSet.fraud_count : ℚ) /
          (o.resultSet.total_transactions : ℚ) * 100 := by positivity
      have hq1 : (o.resultSet.fraud_count : ℚ) /
          (o.resultSet.total_transactions : ℚ) * 100 ≤ 100 := by
        have hd : (o.resultSet.fraud_count : ℚ) /
            (o.resultSet.total_transactions : ℚ) ≤ 1 :=
          (div_le_one htt).2 hfc
        linarith
      rw [hpct]
      exact ⟨h1, roundTo2_nonneg hq0, roundTo2_le_100 hq1⟩

/-- Closed instance of C10's theorem after one successful upload from the
startup state. -/
theorem result_set_invariant_witness :
    ((uploadStep toyEnv toyInput none).2.getD default).fraud_count ≤
      ((uploadStep toyEnv toyInput none).2.getD default).total_transactions :=
  (result_set_invariant (uploadStep toyEnv toyInput none).2
    (Reachable.step toyEnv toyInput Reachable.init)
    ((uploadStep toyEnv toyInput none).2.getD default) (by rfl)).1

/-- C5 counterexample: on a table whose agency texts appear in the order
`b`, `a`, the codes the code assigns (positions in the sorted category
list: `b ↦ 1`, `a ↦ 0`) differ from codes assigned by first-seen distinct
value (`b ↦ 0`, `a ↦ 1`), so the claim's first-seen assignment is false. -/
theorem category_codes_not_first_seen :
    ¬ ((featureize fsRows).map (·.agency_code) =
        specFirstSeenCodes (fsRows.map (·.agency_name.getText))) := by decide

/-- C5 amended: the codes are dense integer positions in the
lexicographically sorted list of distinct text values of the current
upload only; any two rows agree on code exactly when they agree on text,
and the assignment is a deterministic function of the table. -/
theorem category_codes_sorted_dense (rows : List ParsedRecord) :
    (∀ r1 ∈ featureize rows, ∀ r2 ∈ featureize rows,
      (r1.agency_code = r2.agency_code ↔ r1.agency_name = r2.agency_name) ∧
      (r1.merchant_code = r2.merchant_code ↔
        r1.merchant_name = r2.merchant_name)) ∧
    (∀ r ∈ featureize rows,
      r.agency_code =
        (sortedCategories (rows.map (·.agency_name.getText))).indexOf
          r.agency_name ∧
      r.merchant_code =
        (sortedCategories (rows.map (·.merchant_name.getText))).indexOf
          r.merchant_name ∧
      r.agency_code <
        (sortedCategories (rows.map (·.agency_name.getText))).length ∧
      r.merchant_code <
        (sortedCategories (rows.map (·.merchant_name.getText))).length) := by
  have hmem : ∀ r ∈ featureize rows,
      r.agency_name ∈ rows.map (fun p => p.agency_name.getText) ∧
      r.merchant_name ∈ rows.map (fun p => p.merchant_name.getText) ∧
      r.agency_code =
        (sortedCategories (rows.map (·.agency_name.getText))).indexOf
          r.agency_name ∧
      r.merchant_code =
        (sortedCategories (rows.map (·.merchant_name.getText))).indexOf
          r.merchant_name := by
    intro r hr
    simp only [featureize, List.mem_map] at hr
    obtain ⟨p, hp, rfl⟩ := hr
    refine ⟨List.mem_map.2 ⟨p, hp, rfl⟩, List.mem_map.2 ⟨p, hp, rfl⟩, rfl, rfl⟩
  constructor
  · intro r1 h1 r2 h2
    obtain ⟨ha1, hm1, hca1, hcm1⟩ := hmem r1 h1
    obtain ⟨ha2, hm2, hca2, hcm2⟩ := hmem r2 h2
    constructor
    · rw [hca1, hca2]
      exact List.indexOf_inj (mem_sortedCategories_of_mem ha1)
        (mem_sortedCategories_of_mem ha2)
    · rw [hcm1, hcm2]
      exact List.indexOf_inj (mem_sortedCategories_of_mem hm1)
        (mem_sortedCategories_of_mem hm2)
  · intro r hr
    obtain ⟨ha, hm, hca, hcm⟩ := hmem r hr
    refine ⟨hca, hcm, ?_, ?_⟩
    · rw [hca]
      exact List.indexOf_lt_length.2 (mem_sortedCategories_of_mem ha)
    · rw [hcm]
      exact List.indexOf_lt_length.2 (mem_sortedCategories_of_mem hm)

/-- Closed instance of the amended C5 theorem: the two rows of `fsRows`
have distinct agency texts and therefore distinct codes. -/
theorem category_codes_sorted_dense_witness :
    ∀ r1 ∈ featureize fsRows, ∀ r2 ∈ featureize fsRows,
      (r1.agency_code = r2.agency_code ↔ r1.agency_name = r2.agency_name) ∧
      (r1.merchant_code = r2.merchant_code ↔
        r1.merchant_name = r2.merchant_name) :=
  (category_codes_sorted_dense fsRows).1

/-- C7: the cleaner keeps exactly the rows with no null among the four
canonical columns and with a parsable date, as an order-preserving
`filter`-then-`map`; hence on success `total_transactions` counts exactly
the kept rows, and every flagged row originates from a kept row (so a row
with an unparsable date is excluded from both). -/
theorem cleaner_drops_exactly_invalid_rows (env : Env) (t : RawTable) :
    cleanRows env.parseDate t =
      ((ingestRows t).filter (keepRow env.parseDate)).map
        (parsedOf env.parseDate) ∧
    (∀ out, runPipeline env t = .success out →
      out.resultSet.total_transactions =
        ((ingestRows t).filter (keepRow env.parseDate)).length ∧
      ∀ fr ∈ out.resultSet.fraud_table, ∃ r, r ∈ ingestRows t ∧
        keepRow env.parseDate r = true ∧
        fr.agency_name = r.agency_name.getText ∧
        fr.merchant_name = r.merchant_name.getText ∧
        fr.transaction_amount = r.transaction_amount.getText ∧
        parseDateCell env.parseDate r.transaction_date =
          some fr.transaction_date) := by
  have hclean : cleanRows env.parseDate t =
      ((ingestRows t).filter (keepRow env.parseDate)).map
        (parsedOf env.parseDate) :=
    clean_eq_filter env.parseDate (ingestRows t)
  refine ⟨hclean, ?_⟩
  intro out h
  obtain ⟨hS, labels, hSc, hlen, htab, htot, hcnt, hne, hpct, hpath, hrows,
    hprev⟩ := run_success_spec env t out h
  constructor
  · rw [htot, hclean, List.length_map]
  · intro fr hfr
    rw [htab] at hfr
    obtain ⟨hmem, hpred⟩ := List.mem_filter.1 hfr
    obtain ⟨a, ha, b, hb, rfl⟩ := exists_of_mem_zipWith hmem
    rw [hclean] at ha
    simp only [featureize, List.mem_map] at ha
    obtain ⟨p, hp, rfl⟩ := ha
    obtain ⟨r, hr, rfl⟩ := hp
    have hkeep : keepRow env.parseDate r = true := (List.mem_filter.1 hr).2
    have hrmem : r ∈ ingestRows t := (List.mem_filter.1 hr).1
    have hsome : (parseDateCell env.parseDate r.transaction_date).isSome := by
      have h' := hkeep
      simp only [keepRow, Bool.and_eq_true] at h'
      exact h'.2
    obtain ⟨d, hd⟩ := Option.isSome_iff_exists.1 hsome
    refine ⟨r, hrmem, hkeep, rfl, rfl, rfl, ?_⟩
    show parseDateCell env.parseDate r.transaction_date =
      some ((parsedOf env.parseDate r).transaction_date.getD default)
    simp [parsedOf, hd]

/-- Closed instance of C7's theorem at the concrete toy run. -/
theorem cleaner_drops_exactly_invalid_rows_witness :
    cleanRows toyEnv.parseDate emptyCleanInput =
      ((ingestRows emptyCleanInput).filter (keepRow toyEnv.parseDate)).map
        (parsedOf toyEnv.parseDate) :=
  (cleaner_drops_exactly_invalid_rows toyEnv emptyCleanInput).1

theorem selectCell_extend (cols rest : List String) (row e : List Cell)
    (c : String) (hc : c ∈ cols) (hr : row.length = cols.length) :
    selectCell (cols ++ rest) (row ++ e) c = selectCell cols row c := by
  unfold selectCell
  rw [List.indexOf_append_of_mem hc]
  have hlt : cols.indexOf c < row.length := by
    rw [hr]
    exact List.indexOf_lt_length.2 hc
  exact List.getD_append _ _ _ _ hlt

theorem schemaOk_mem (t : RawTable) (hS : schemaOk t = true) :
    ∀ c ∈ expected_cols, c ∈ t.header.map normalizeCol := by
  intro c hc
  have h := List.all_eq_true.1 hS c hc
  simpa using h

theorem zipWith_append_map_eq {β : Type} (g g' : List Cell → β)
    (rows er : List (List Cell)) (hlen : er.length = rows.length)
    (hrow : ∀ r ∈ rows, ∀ e, g' (r ++ e) = g r) :
    (List.zipWith (· ++ ·) rows er).map g' = rows.map g := by
  induction rows generalizing er with
  | nil => simp
  | cons r rs ih =>
    cases er with
    | nil => simp at hlen
    | cons e es =>
      simp only [List.zipWith_cons_cons, List.map_cons, List.cons.injEq]
      exact ⟨hrow r (by simp) e,
        ih es (by simpa using hlen)
          (fun r' h' e' => hrow r' (by simp [h']) e')⟩

theorem ingestRows_extendTable (t : RawTable) (eh : List String)
    (er : List (List Cell))
    (hwf : ∀ r ∈ t.rows, r.length = t.header.length)
    (hlen : er.length = t.rows.length)
    (hS : schemaOk t = true) :
    ingestRows (extendTable t eh er) = ingestRows t := by
  have hmem := schemaOk_mem t hS
  have hTD : "transaction_date" ∈ t.header.map normalizeCol :=
    hmem _ (by simp [expected_cols])
  have hAG : "agency_name" ∈ t.header.map normalizeCol :=
    hmem _ (by simp [expected_cols])
  have hVD : "vendor" ∈ t.header.map normalizeCol :=
    hmem _ (by simp [expected_cols])
  have hAM : "amount" ∈ t.header.map normalizeCol :=
    hmem _ (by simp [expected_cols])
  unfold ingestRows extendTable
  simp only [List.map_append]
  apply zipWith_append_map_eq _ _ _ _ hlen
  intro r hr e
  have hlr : r.length = (t.header.map normalizeCol).length := by
    rw [List.length_map]
    exact hwf r hr
  rw [selectCell_extend _ _ _ _ _ hTD hlr,
    selectCell_extend _ _ _ _ _ hAG hlr,
    selectCell_extend _ _ _ _ _ hVD hlr,
    selectCell_extend _ _ _ _ _ hAM hlr]

theorem schemaOk_extendTable (t : RawTable) (eh : List String)
    (er : List (List Cell)) (hS : schemaOk t = true) :
    schemaOk (extendTable t eh er) = true := by
  have hmem := schemaOk_mem t hS
  unfold schemaOk extendTable
  rw [List.all_eq_true]
  intro c hc
  simp only [List.map_append]
  simpa using List.mem_append_left (eh.map normalizeCol) (hmem c hc)

theorem selectedColCount_extendTable (t : RawTable) (eh : List String)
    (er : List (List Cell))
    (hnc : ∀ c ∈ eh, normalizeCol c ∉ expected_cols) :
    selectedColCount (extendTable t eh er) = selectedColCount t := by
  unfold selectedColCount extendTable
  congr 1
  apply List.map_congr_left
  intro c hc
  simp only [List.map_append, List.count_append]
  have hz : (eh.map normalizeCol).count c = 0 := by
    rw [List.count_eq_zero]
    intro hmem
    obtain ⟨c0, hc0, rfl⟩ := List.mem_map.1 hmem
    exact hnc c0 hc0 hc
  omega

/-- C3 counterexample: the extra column `AMOUNT` appended to a valid
upload normalizes to `amount`, duplicating a required label; pandas then
selects five columns at line 100 and the four-name rename at line 101
raises, so the run aborts through the catch-all instead of silently
dropping the extra column — while the same upload without it succeeds. -/
theorem extra_column_collision_error :
    dupColInput = extendTable toyInput ["AMOUNT"] [[.text "1"], [.text "2"]] ∧
    (runPipeline toyEnv toyInput).isSuccess = true ∧
    runPipeline toyEnv dupColInput =
      .pipelineError
        "Length mismatch: Expected axis has more elements than new values" :=
  ⟨rfl, by decide, by decide⟩

/-- C3 amended: a missing required column yields the 400 response whose
message lists the normalized column names actually found, leaving the
Result Set unchanged; appending extra columns whose normalized names
avoid the four required names changes nothing (they are silently dropped
by the four-column selection); but an extra column whose normalized name
collides with a required one makes the run abort with an error through
the duplicate-label rename failure of lines 100-101. -/
theorem upload_schema_behavior (env : Env) (t : RawTable)
    (st : Option ResultSet) :
    (schemaOk t = false →
      uploadStep env t st =
        ({ body := "Required columns missing. Found: " ++
             toString (t.header.map normalizeCol), status := 400 }, st)) ∧
    (∀ eh er, schemaOk t = true →
      (∀ r ∈ t.rows, r.length = t.header.length) →
      er.length = t.rows.length →
      (∀ c ∈ eh, normalizeCol c ∉ expected_cols) →
      runPipeline env (extendTable t eh er) = runPipeline env t) ∧
    (∀ eh er, schemaOk t = true →
      (∃ c ∈ eh, normalizeCol c ∈ expected_cols) →
      ∃ e, runPipeline env (extendTable t eh er) = .pipelineError e) := by
  refine ⟨?_, ?_, ?_⟩
  · intro hS
    have hrun : runPipeline env t = .schemaError (t.header.map normalizeCol) := by
      unfold runPipeline
      rw [hS]
      simp
    unfold uploadStep
    rw [hrun]
  · intro eh er hS hwf hlen hnc
    have hS' := schemaOk_extendTable t eh er hS
    have hing := ingestRows_extendTable t eh er hwf hlen hS
    have hCC := selectedColCount_extendTable t eh er hnc
    simp only [runPipeline, hS, hS', eq_self_iff_true, if_true, hCC, hing]
  · intro eh er hS hcol
    obtain ⟨c0, hc0, hc0e⟩ := hcol
    have hS' := schemaOk_extendTable t eh er hS
    have hmem := schemaOk_mem t hS
    have hd : normalizeCol c0 ∈ eh.map normalizeCol :=
      List.mem_map.2 ⟨c0, hc0, rfl⟩
    have h1 : 0 < (t.header.map normalizeCol).count "transaction_date" :=
      List.count_pos_iff.2 (hmem _ (by simp [expected_cols]))
    have h2 : 0 < (t.header.map normalizeCol).count "agency_name" :=
      List.count_pos_iff.2 (hmem _ (by simp [expected_cols]))
    have h3 : 0 < (t.header.map normalizeCol).count "vendor" :=
      List.count_pos_iff.2 (hmem _ (by simp [expected_cols]))
    have h4 : 0 < (t.header.map normalizeCol).count "amount" :=
      List.count_pos_iff.2 (hmem _ (by simp [expected_cols]))
    have hge : selectedColCount (extendTable t eh er) ≠ 4 := by
      have hsum : selectedColCount (extendTable t eh er) =
          ((t.header.map normalizeCol).count "transaction_date" +
            (eh.map normalizeCol).count "transaction_date") +
          (((t.header.map normalizeCol).count "agency_name" +
            (eh.map normalizeCol).count "agency_name") +
          (((t.header.map normalizeCol).count "vendor" +
            (eh.map normalizeCol).count "vendor") +
          (((t.header.map normalizeCol).count "amount" +
            (eh.map normalizeCol).count "amount") + 0))) := by
        simp [selectedColCount, extendTable, expected_cols,
          List.map_append, List.count_append]
      simp only [expected_cols, List.mem_cons, List.mem_singleton,
        List.not_mem_nil, or_false] at hc0e
      rcases hc0e with h | h | h | h <;>
        · rw [h] at hd
          have h5 := List.count_pos_iff.2 hd
          omega
    exact ⟨_, by unfold runPipeline; rw [hS', if_pos rfl, if_neg hge]⟩

/-- Closed instance of the amended C3 theorem: a missing `vendor` column,
a harmless extra column, and a colliding extra column. -/
theorem upload_schema_behavior_witness :
    uploadStep toyEnv missingVendorInput none =
      ({ body := "Required columns missing. Found: " ++
           toString (missingVendorInput.header.map normalizeCol),
         status := 400 }, none) ∧
    runPipeline toyEnv
        (extendTable toyInput ["Extra Col"] [[.text "x"], [.text "y"]]) =
      runPipeline toyEnv toyInput ∧
    (∃ e, runPipeline toyEnv
        (extendTable toyInput ["AMOUNT"] [[.text "1"], [.text "2"]]) =
      .pipelineError e) := by
  refine ⟨?_, ?_, ?_⟩
  · exact (upload_schema_behavior toyEnv missingVendorInput none).1 (by decide)
  · exact (upload_schema_behavior toyEnv toyInput none).2.1 ["Extra Col"]
      [[.text "x"], [.text "y"]] (by decide) (by decide) (by decide) (by decide)
  · exact (upload_schema_behavior toyEnv toyInput none).2.2 ["AMOUNT"]
      [[.text "1"], [.text "2"]] (by decide) (by decide)
